import Mathlib

/-!
Shallow embedding of the travel-buddy planning pipeline:
the composite POI candidate selector, the POI planner, the travel-time
estimator (heuristic + factory), and the route/time optimizer.

Embedded from `src/application/poi_planner.py` and
`src/application/route_optimizer.py`.  The modules
`src/infrastructure/poi_providers.py` and `src/infrastructure/travel_time.py`
are not part of the source snapshot (only their tests are), so those
components are modelled from the specification, as marked on each definition.
-/

/-- Budget tiers, from `src.domain.models.BudgetLevel` (used opaquely). -/
inductive BudgetLevel where
  | low
  | medium
  | high
deriving DecidableEq, Repr

/-- A venue candidate, from `src.domain.models.POICandidate` (fields as used
by the tests and the application code; UUID identity modelled as `Nat`,
float coordinates and scores as `ℚ`). -/
structure POICandidate where
  poi_id : Nat
  name : String
  category : String
  tags : List String
  rating : Option ℚ
  price_level : Option Nat
  location : String
  lat : Option ℚ
  lon : Option ℚ
  rank_score : ℚ
deriving DecidableEq, Repr

/-- The argument tuple of `search_pois(city, desired_categories, budget,
limit, center_location)`. -/
structure POIQuery where
  city : String
  desired_categories : List String
  budget : Option BudgetLevel
  limit : Nat
  center_location : Option String
deriving DecidableEq, Repr

/-- Drop every candidate whose `poi_id` already occurred earlier in the list
(or is in `seen`), keeping the first occurrence of each identity. -/
def dedupGo : List Nat → List POICandidate → List POICandidate
  | _, [] => []
  | seen, c :: cs =>
    if c.poi_id ∈ seen then dedupGo seen cs
    else c :: dedupGo (c.poi_id :: seen) cs

/-- Deduplicate a candidate list by `poi_id`, keeping first occurrences. -/
def dedupByPoiId (l : List POICandidate) : List POICandidate :=
  dedupGo [] l

/-- Result of a composite search together with whether the external
source was invoked. -/
structure SearchOutcome where
  results : List POICandidate
  externalCalled : Bool
deriving Repr

namespace CompositePOIProvider

/-- Modelled from the spec: `CompositePOIProvider.search_pois`
(`src/infrastructure/poi_providers.py` is absent from the snapshot; tests in
`src/tests/test_poi_caching.py` pin this behavior).  Query the local (DB)
source with the full limit; if it already yields at least `limit` results,
return them unchanged without touching the external source.  Otherwise query
the external source; an external error is swallowed and the search proceeds
with local-only results.  The merged list is local results first, then
external, deduplicated by `poi_id` keeping first occurrences, truncated to
`limit`.  The model is total: no exception escapes the composite search. -/
def search_pois (dbSearch : POIQuery → List POICandidate)
    (extSearch : POIQuery → Except String (List POICandidate))
    (q : POIQuery) : SearchOutcome :=
  let dbResults := dbSearch q
  if q.limit ≤ dbResults.length then
    { results := dbResults, externalCalled := false }
  else
    match extSearch q with
    | .error _ => { results := (dedupByPoiId dbResults).take q.limit, externalCalled := true }
    | .ok ext => { results := (dedupByPoiId (dbResults ++ ext)).take q.limit, externalCalled := true }

/-- The external contribution actually merged by `search_pois`: empty when
the external source is skipped (local already met the limit) or when its
query fails, otherwise its returned list. -/
def externalPart (dbSearch : POIQuery → List POICandidate)
    (extSearch : POIQuery → Except String (List POICandidate))
    (q : POIQuery) : List POICandidate :=
  if q.limit ≤ (dbSearch q).length then []
  else
    match extSearch q with
    | .error _ => []
    | .ok ext => ext

end CompositePOIProvider

/-- Time-block categories, from `src.domain.models.BlockType`. -/
inductive BlockType where
  | meal
  | activity
  | nightlife
  | rest
  | travel
deriving DecidableEq, Repr

/-- A typed time block of the macro-plan day skeleton, from
`src.domain.models` (fields as used in `poi_planner.py` and
`route_optimizer.py`; times kept as opaque strings). -/
structure SkeletonBlock where
  block_type : BlockType
  start_time : String
  end_time : String
  theme : Option String
  desired_categories : List String
deriving DecidableEq, Repr

/-- A day of the macro plan, from `src.domain.models.DaySkeleton`. -/
structure DaySkeleton where
  day_number : Nat
  date : String
  theme : Option String
  blocks : List SkeletonBlock
deriving DecidableEq, Repr

/-- The macro plan: the ordered day skeletons (`macro_plan.days`). -/
structure MacroPlan where
  days : List DaySkeleton
deriving DecidableEq, Repr

/-- The trip fields consumed by `generate_poi_plan`
(`trip_spec.city`, `trip_spec.budget`, `trip_spec.hotel_location`). -/
structure TripSpec where
  city : String
  budget : Option BudgetLevel
  hotel_location : Option String
deriving DecidableEq, Repr

/-- A POI plan block, from `src.domain.schemas.POIPlanBlock` as constructed
in `poi_planner.py`. -/
structure POIPlanBlock where
  day_number : Nat
  block_index : Nat
  block_theme : String
  block_type : BlockType
  candidates : List POICandidate
deriving DecidableEq, Repr

/-- Python truthiness of `theme or default`: `None` and `""` both fall back
to the default. -/
def themeOr (t : Option String) (d : String) : String :=
  match t with
  | some s => if s = "" then d else s
  | none => d

namespace POIPlanner

/-- `POIPlanner.BLOCK_TYPES_NEEDING_POIS` membership
(`_block_needs_pois` in `poi_planner.py`). -/
def block_needs_pois (t : BlockType) : Bool :=
  match t with
  | .meal => true
  | .activity => true
  | .nightlife => true
  | .rest => false
  | .travel => false

/-- `POIPlanner.CANDIDATES_PER_BLOCK` (`poi_planner.py`, line 34). -/
def CANDIDATES_PER_BLOCK : Nat := 3

/-- The candidate-generation loop of `POIPlanner.generate_poi_plan`
(`poi_planner.py`, lines 84-109): for each day, enumerate its blocks,
skip the block types that need no POIs, and for each remaining block call
the provider's `search_pois` with the trip's city, the block's desired
categories, the trip's budget, `CANDIDATES_PER_BLOCK` as limit and the
trip's hotel location as center, recording the result as a `POIPlanBlock`.
The provider is a parameter (the code defaults it to the composite
provider). -/
def generate_poi_plan (trip : TripSpec) (macro_plan : MacroPlan)
    (search : POIQuery → List POICandidate) : List POIPlanBlock :=
  macro_plan.days.flatMap fun day =>
    (day.blocks.enum.filter fun ib => block_needs_pois ib.2.block_type).map fun ib =>
      { day_number := day.day_number
        block_index := ib.1
        block_theme := themeOr ib.2.theme ""
        block_type := ib.2.block_type
        candidates := search
          { city := trip.city
            desired_categories := ib.2.desired_categories
            budget := trip.budget
            limit := CANDIDATES_PER_BLOCK
            center_location := trip.hotel_location } }

end POIPlanner

/-- Travel mode of the heuristic estimator (walking or driving average
speed, per the constants pinned in `src/tests/test_travel_time_factory.py`). -/
inductive TravelMode where
  | walking
  | driving
deriving DecidableEq, Repr

/-- Modelled from the spec: a travel endpoint with optional coordinates
(`TravelLocation` lives in the absent `src/infrastructure/travel_time.py`). -/
structure TravelLocation where
  lat : Option ℚ
  lon : Option ℚ
deriving DecidableEq, Repr

/-- Modelled from the spec: `TravelLocation.from_poi`, called in
`route_optimizer.py` with a possibly absent POI; an absent POI yields an
unset location. -/
def TravelLocation.from_poi (p : Option POICandidate) : TravelLocation :=
  match p with
  | none => { lat := none, lon := none }
  | some c => { lat := c.lat, lon := c.lon }

/-- A travel estimate: duration in minutes, optional distance in meters,
optional encoded path (spec §3 "Travel Estimate"). -/
structure TravelEstimate where
  duration_minutes : ℝ
  distance_meters : Option ℝ
  polyline : Option String

namespace SimpleHeuristicTravelTimeProvider

/-- `SimpleHeuristicTravelTimeProvider.AVERAGE_WALKING_SPEED_KMH` and
`AVERAGE_DRIVING_SPEED_KMH` (pinned by `test_travel_time_factory.py`,
lines 149-155). -/
def speed_kmh (mode : TravelMode) : ℝ :=
  match mode with
  | .walking => 5
  | .driving => 30

/-- Degrees to radians. -/
noncomputable def deg2rad (x : ℚ) : ℝ :=
  (x : ℝ) * Real.pi / 180

/-- The haversine parameter
`sin²(Δφ/2) + cos φ₁ · cos φ₂ · sin²(Δλ/2)` of the great-circle formula. -/
noncomputable def havParam (la1 lo1 la2 lo2 : ℚ) : ℝ :=
  Real.sin ((deg2rad la2 - deg2rad la1) / 2) ^ 2 +
    Real.cos (deg2rad la1) * Real.cos (deg2rad la2) *
      Real.sin ((deg2rad lo2 - deg2rad lo1) / 2) ^ 2

/-- Modelled from the spec: great-circle (haversine) distance in km between
two coordinate pairs given in degrees, Earth radius 6371 km.  The concrete
formula lives in the absent `src/infrastructure/travel_time.py`; the spec
says "straight-line (great-circle) distance between coordinates". -/
noncomputable def haversineKm (la1 lo1 la2 lo2 : ℚ) : ℝ :=
  2 * 6371 * Real.arcsin (Real.sqrt (havParam la1 lo1 la2 lo2))

/-- Modelled from the spec: `SimpleHeuristicTravelTimeProvider.estimate_travel`
(`src/infrastructure/travel_time.py` is absent).  When both endpoints carry
coordinates, the duration is the great-circle distance divided by the mode's
average speed (in minutes) and the distance is reported in meters; no path
is ever returned.  When either endpoint lacks coordinates — in particular the
unset origin the route optimizer passes when no previous venue exists — the
estimate is zero duration with absent distance, per the spec's scenario
"meal block has that venue and travel_time=0 (no prior venue)". -/
noncomputable def estimate_travel (mode : TravelMode)
    (origin destination : TravelLocation) : TravelEstimate :=
  match origin.lat, origin.lon, destination.lat, destination.lon with
  | some la1, some lo1, some la2, some lo2 =>
    let distKm := haversineKm la1 lo1 la2 lo2
    { duration_minutes := distKm / speed_kmh mode * 60
      distance_meters := some (distKm * 1000)
      polyline := none }
  | _, _, _, _ => { duration_minutes := 0, distance_meters := none, polyline := none }

end SimpleHeuristicTravelTimeProvider

/-- ASCII lowering of one character, as Python's `str.lower()` acts on the
ASCII configuration strings involved here. -/
def asciiLowerChar (c : Char) : Char :=
  if 'A' ≤ c ∧ c ≤ 'Z' then Char.ofNat (c.toNat + 32) else c

/-- ASCII lowering of a string (model of Python's `str.lower()` on the
configuration values at hand). -/
def asciiLower (s : String) : String :=
  ⟨s.data.map asciiLowerChar⟩

/-- The provider the travel-time factory hands back: the primary
network-based provider (carrying its API key) or the heuristic fallback. -/
inductive TravelProviderChoice where
  | google_maps (api_key : String)
  | heuristic
deriving DecidableEq, Repr

/-- The configuration fields read by the travel-time factory
(`settings.travel_time_provider`, `settings.google_maps_api_key`). -/
structure TravelSettings where
  travel_time_provider : String
  google_maps_api_key : Option String
deriving DecidableEq, Repr

/-- Modelled from the spec: the factory `get_travel_time_provider`
(`src/infrastructure/travel_time.py` is absent; behavior pinned by
`src/tests/test_travel_time_factory.py`, lines 15-92).  Case-insensitively,
a configured provider string `"google_maps"` together with a present,
non-empty API key yields the primary provider; every other combination —
explicit `"simple"`, an unknown value, a missing or empty key — yields the
heuristic provider.  The model is total: the factory never raises. -/
def get_travel_time_provider (s : TravelSettings) : TravelProviderChoice :=
  if asciiLower s.travel_time_provider = "google_maps" then
    match s.google_maps_api_key with
    | some k => if k = "" then .heuristic else .google_maps k
    | none => .heuristic
  else
    .heuristic

/-- An itinerary block, from `src.domain.models.ItineraryBlock` as
constructed in `route_optimizer.py`, lines 164-173. -/
structure ItineraryBlock where
  block_type : BlockType
  start_time : String
  end_time : String
  poi : Option POICandidate
  travel_time_from_prev : ℝ
  travel_distance_meters : Option ℝ
  travel_polyline : Option String
  notes : Option String

/-- An itinerary day, from `src.domain.models.ItineraryDay` as constructed
in `route_optimizer.py`, lines 177-182. -/
structure ItineraryDay where
  day_number : Nat
  date : String
  theme : Option String
  blocks : List ItineraryBlock

namespace RouteTimeOptimizer

/-- `RouteTimeOptimizer.BLOCK_TYPES_NEEDING_POIS` membership
(`_block_needs_poi` in `route_optimizer.py`, lines 28-47): the same set as
the POI planner's. -/
def block_needs_poi (t : BlockType) : Bool :=
  POIPlanner.block_needs_pois t

/-- The match condition of `_select_poi_for_block` (`route_optimizer.py`,
line 69): the POI plan block for `(day_number, block_index)`. -/
def matchesBlock (day_number block_index : Nat) (pb : POIPlanBlock) : Bool :=
  pb.day_number = day_number ∧ pb.block_index = block_index

/-- `RouteTimeOptimizer._select_poi_for_block` (`route_optimizer.py`,
lines 49-77): find the first POI plan block matching `(day_number,
block_index)`; return its first candidate, or `none` when no block matches
or its candidate list is empty. -/
def select_poi_for_block (day_number block_index : Nat)
    (poi_plan_blocks : List POIPlanBlock) : Option POICandidate :=
  match poi_plan_blocks.find? (matchesBlock day_number block_index) with
  | none => none
  | some pb => pb.candidates.head?

/-- The notes assignment of `generate_itinerary` (`route_optimizer.py`,
lines 156-161): REST and TRAVEL blocks get the skeleton theme or a
type-specific default (Python `or`, so an empty theme also falls back);
all other block types get no note. -/
def blockNotes (b : SkeletonBlock) : Option String :=
  match b.block_type with
  | .rest => some (themeOr b.theme "Rest at hotel")
  | .travel => some (themeOr b.theme "Travel time")
  | _ => none

/-- The travel-estimate step of the block loop (`route_optimizer.py`,
lines 141-151): the estimator is invoked exactly when the previous or the
current POI is present, with `TravelLocation.from_poi` on each (the absent
one giving an unset location); otherwise the travel fields stay at their
zero/absent defaults. -/
def travelFor (est : TravelLocation → TravelLocation → TravelEstimate)
    (prev selected : Option POICandidate) : TravelEstimate :=
  if prev.isSome || selected.isSome then
    est (TravelLocation.from_poi prev) (TravelLocation.from_poi selected)
  else
    { duration_minutes := 0, distance_meters := none, polyline := none }

/-- The per-day block loop of `RouteTimeOptimizer.generate_itinerary`
(`route_optimizer.py`, lines 126-174), processing the skeleton blocks of one
day in order while carrying the previous-POI cursor.  `idx` is the running
`enumerate` index, `prev` the cursor.  For a venue-needing block the POI is
selected from the plan, the travel fields come from `travelFor`, and the
cursor becomes the selected POI (possibly `none`).  Non-venue blocks get no
POI, default travel fields, a note, and leave the cursor untouched.  The
estimator is a parameter, as `travel_time_provider` is on the class. -/
def buildBlocks (est : TravelLocation → TravelLocation → TravelEstimate)
    (dayNum : Nat) (poi_plan_blocks : List POIPlanBlock) :
    Nat → Option POICandidate → List SkeletonBlock → List ItineraryBlock
  | _, _, [] => []
  | idx, prev, b :: rest =>
    if block_needs_poi b.block_type then
      let selected := select_poi_for_block dayNum idx poi_plan_blocks
      let travel : TravelEstimate := travelFor est prev selected
      { block_type := b.block_type
        start_time := b.start_time
        end_time := b.end_time
        poi := selected
        travel_time_from_prev := travel.duration_minutes
        travel_distance_meters := travel.distance_meters
        travel_polyline := travel.polyline
        notes := blockNotes b } :: buildBlocks est dayNum poi_plan_blocks (idx + 1) selected rest
    else
      { block_type := b.block_type
        start_time := b.start_time
        end_time := b.end_time
        poi := none
        travel_time_from_prev := 0
        travel_distance_meters := none
        travel_polyline := none
        notes := blockNotes b } :: buildBlocks est dayNum poi_plan_blocks (idx + 1) prev rest

/-- The day loop of `RouteTimeOptimizer.generate_itinerary`
(`route_optimizer.py`, lines 119-183): each macro-plan day yields one
itinerary day whose blocks are built in skeleton order with the
previous-POI cursor starting at `none`. -/
def generate_itinerary_days (est : TravelLocation → TravelLocation → TravelEstimate)
    (macro_plan : MacroPlan) (poi_plan_blocks : List POIPlanBlock) : List ItineraryDay :=
  macro_plan.days.map fun day =>
    { day_number := day.day_number
      date := day.date
      theme := day.theme
      blocks := buildBlocks est day.day_number poi_plan_blocks 0 none day.blocks }

/-- The stored itinerary record as `generate_itinerary` touches it
(`ItineraryModel`): the POI plan it reads and the day list it overwrites. -/
structure ItineraryRecord where
  poi_plan : List POIPlanBlock
  days : Option (List ItineraryDay)

/-- The storage step of `generate_itinerary` (`route_optimizer.py`,
lines 185-197): the freshly generated day list replaces the record's `days`
wholesale; the previously stored days are not consulted. -/
def storeItinerary (m : ItineraryRecord) (new_days : List ItineraryDay) : ItineraryRecord :=
  { m with days := some new_days }

/-- One full `generate_itinerary` run against a stored record: read the POI
plan from the record, regenerate the day list from the macro plan, and
overwrite the stored days. -/
def runGenerate (est : TravelLocation → TravelLocation → TravelEstimate)
    (macro_plan : MacroPlan) (m : ItineraryRecord) : ItineraryRecord :=
  storeItinerary m (generate_itinerary_days est macro_plan m.poi_plan)

end RouteTimeOptimizer

/-! ## Concrete sample data used by the witness theorems -/

/-- A sample locally-cached candidate (after `test_poi_caching.py`). -/
def sampleLocalPoi : POICandidate :=
  { poi_id := 1, name := "Cached Cafe", category := "cafe", tags := ["cafe"]
    rating := some (46/10), price_level := none, location := "789 Cached St, Paris"
    lat := some (4886/100), lon := some (234/100), rank_score := 18 }

/-- A sample externally-fetched candidate. -/
def sampleExternalPoi : POICandidate :=
  { poi_id := 2, name := "New External Cafe", category := "cafe", tags := ["cafe"]
    rating := some (48/10), price_level := some 1, location := "999 External Ave, Paris"
    lat := some (4887/100), lon := some (235/100), rank_score := 19 }

/-- An external candidate colliding with `sampleLocalPoi` on identity. -/
def sampleCollidingPoi : POICandidate :=
  { sampleExternalPoi with poi_id := 1, name := "Cafe from External" }

/-- A sample search query with limit 1. -/
def sampleQuery1 : POIQuery :=
  { city := "Paris", desired_categories := ["cafe"], budget := some .medium
    limit := 1, center_location := none }

/-- A sample search query with limit 3. -/
def sampleQuery3 : POIQuery :=
  { sampleQuery1 with limit := 3 }

/-! ## Concrete skeleton sample data for witnesses -/

/-- A sample venue-needing skeleton block. -/
def sampleMealBlock : SkeletonBlock :=
  { block_type := .meal, start_time := "08:00", end_time := "09:30"
    theme := some "breakfast", desired_categories := ["cafe"] }

/-- A sample rest skeleton block with no theme. -/
def sampleRestBlock : SkeletonBlock :=
  { block_type := .rest, start_time := "14:00", end_time := "15:00"
    theme := none, desired_categories := [] }

/-- A one-block sample day. -/
def sampleDay : DaySkeleton :=
  { day_number := 1, date := "2025-06-01", theme := some "Classics"
    blocks := [sampleMealBlock] }

/-- A one-day sample macro plan. -/
def sampleMacroPlan : MacroPlan :=
  { days := [sampleDay] }

/-- A sample POI plan block matching `(day 1, block 0)` with two ranked
candidates. -/
def samplePlanBlock : POIPlanBlock :=
  { day_number := 1, block_index := 0, block_theme := "breakfast"
    block_type := .meal, candidates := [sampleLocalPoi, sampleExternalPoi] }

/-- A constant concrete travel estimator used by witnesses. -/
def sampleEstimator : TravelLocation → TravelLocation → TravelEstimate :=
  fun _ _ => { duration_minutes := 12, distance_meters := some 1000, polyline := none }

/-- A sample trip spec. -/
def sampleTrip : TripSpec :=
  { city := "Paris", budget := some .medium, hotel_location := some "Hotel Lutetia" }


/-! ## Lemmas about deduplication by `poi_id` -/

lemma mem_of_mem_dedupGo {c : POICandidate} :
    ∀ {seen : List Nat} {l : List POICandidate}, c ∈ dedupGo seen l → c ∈ l := by
  intro seen l
  induction l generalizing seen with
  | nil => intro h; simp [dedupGo] at h
  | cons a as ih =>
    intro h
    rw [dedupGo] at h
    by_cases ha : a.poi_id ∈ seen
    · rw [if_pos ha] at h
      exact List.mem_cons_of_mem _ (ih h)
    · rw [if_neg ha] at h
      rcases List.mem_cons.mp h with h | h
      · exact h ▸ List.mem_cons_self _ _
      · exact List.mem_cons_of_mem _ (ih h)

lemma poi_id_not_seen_of_mem_dedupGo {c : POICandidate} :
    ∀ {seen : List Nat} {l : List POICandidate}, c ∈ dedupGo seen l → c.poi_id ∉ seen := by
  intro seen l
  induction l generalizing seen with
  | nil => intro h; simp [dedupGo] at h
  | cons a as ih =>
    intro h
    rw [dedupGo] at h
    by_cases ha : a.poi_id ∈ seen
    · rw [if_pos ha] at h
      exact ih h
    · rw [if_neg ha] at h
      rcases List.mem_cons.mp h with h | h
      · exact h ▸ ha
      · intro hc
        exact (ih h) (List.mem_cons_of_mem _ hc)

lemma dedupGo_eq_self :
    ∀ {l : List POICandidate} {seen : List Nat},
      (∀ c ∈ l, c.poi_id ∉ seen) → (l.map POICandidate.poi_id).Nodup →
      dedupGo seen l = l := by
  intro l
  induction l with
  | nil => intro seen _ _; rfl
  | cons a as ih =>
    intro seen hseen hnd
    rw [dedupGo, if_neg (hseen a (List.mem_cons_self _ _))]
    congr 1
    refine ih ?_ ((List.nodup_cons.mp (by simpa using hnd)).2)
    intro x hx
    rw [List.mem_cons]
    rintro (hid | hid)
    · exact (List.nodup_cons.mp (by simpa using hnd)).1
        (hid ▸ List.mem_map_of_mem POICandidate.poi_id hx)
    · exact hseen x (List.mem_cons_of_mem _ hx) hid

lemma dedupByPoiId_eq_self {l : List POICandidate}
    (hnd : (l.map POICandidate.poi_id).Nodup) : dedupByPoiId l = l :=
  dedupGo_eq_self (by simp) hnd

lemma dedupGo_nodup_ids :
    ∀ {l : List POICandidate} {seen : List Nat},
      ((dedupGo seen l).map POICandidate.poi_id).Nodup := by
  intro l
  induction l with
  | nil => intro seen; simp [dedupGo]
  | cons a as ih =>
    intro seen
    rw [dedupGo]
    by_cases ha : a.poi_id ∈ seen
    · rw [if_pos ha]; exact ih
    · rw [if_neg ha]
      rw [List.map_cons, List.nodup_cons]
      refine ⟨?_, ih⟩
      intro hmem
      rcases List.mem_map.mp hmem with ⟨c, hc, hid⟩
      exact poi_id_not_seen_of_mem_dedupGo hc (hid ▸ List.mem_cons_self _ _)

lemma mem_left_of_mem_dedupGo_append {e : POICandidate} :
    ∀ {xs : List POICandidate} {seen : List Nat} {ys : List POICandidate},
      e ∈ dedupGo seen (xs ++ ys) → (∃ x ∈ xs, x.poi_id = e.poi_id) → e ∈ xs := by
  intro xs
  induction xs with
  | nil => rintro seen ys _ ⟨x, hx, _⟩; simp at hx
  | cons a as ih =>
    intro seen ys he hex
    rw [List.cons_append, dedupGo] at he
    by_cases ha : a.poi_id ∈ seen
    · rw [if_pos ha] at he
      rcases hex with ⟨x, hx, hid⟩
      rcases List.mem_cons.mp hx with hx | hx
      · refine absurd ?_ (poi_id_not_seen_of_mem_dedupGo he)
        rw [← hid, hx]; exact ha
      · exact List.mem_cons_of_mem _ (ih he ⟨x, hx, hid⟩)
    · rw [if_neg ha] at he
      rcases List.mem_cons.mp he with he | he
      · exact he ▸ List.mem_cons_self _ _
      · rcases hex with ⟨x, hx, hid⟩
        rcases List.mem_cons.mp hx with hx | hx
        · refine absurd ?_ (poi_id_not_seen_of_mem_dedupGo he)
          rw [← hid, hx]; exact List.mem_cons_self _ _
        · exact List.mem_cons_of_mem _ (ih he ⟨x, hx, hid⟩)

/-! ## C1 - C3: the composite candidate selector -/

/-- C1: when the local (DB) source returns at least `limit` candidates, the
composite selector never invokes the external source and returns exactly the
local results, unchanged and in the local order. -/
theorem composite_skips_external_when_local_full
    (dbSearch : POIQuery → List POICandidate)
    (extSearch : POIQuery → Except String (List POICandidate)) (q : POIQuery)
    (h : q.limit ≤ (dbSearch q).length) :
    CompositePOIProvider.search_pois dbSearch extSearch q =
      { results := dbSearch q, externalCalled := false } := by
  simp [CompositePOIProvider.search_pois, h]

/-- Witness for C1: a limit-1 query against a DB holding one matching
candidate leaves the external source uncalled. -/
theorem composite_skips_external_when_local_full_witness :
    CompositePOIProvider.search_pois (fun _ => [sampleLocalPoi])
      (fun _ => .ok [sampleExternalPoi]) sampleQuery1 =
      { results := [sampleLocalPoi], externalCalled := false } :=
  composite_skips_external_when_local_full
    (fun _ => [sampleLocalPoi]) (fun _ => .ok [sampleExternalPoi]) sampleQuery1
    (by decide)

/-- C2: when the local source returns fewer than `limit` candidates and the
external query raises, the composite search raises no exception (the model
is total) and returns exactly the local-only results; the truncation to
`limit` is vacuous since the local list is shorter than `limit`. -/
theorem composite_local_only_on_external_error
    (dbSearch : POIQuery → List POICandidate)
    (extSearch : POIQuery → Except String (List POICandidate)) (q : POIQuery)
    (msg : String)
    (hless : (dbSearch q).length < q.limit)
    (herr : extSearch q = .error msg)
    (hnd : ((dbSearch q).map POICandidate.poi_id).Nodup) :
    CompositePOIProvider.search_pois dbSearch extSearch q =
      { results := (dbSearch q).take q.limit, externalCalled := true } ∧
    (dbSearch q).take q.limit = dbSearch q := by
  have hnle : ¬ q.limit ≤ (dbSearch q).length := Nat.not_le.mpr hless
  have htake : (dbSearch q).take q.limit = dbSearch q :=
    List.take_of_length_le (Nat.le_of_lt hless)
  refine ⟨?_, htake⟩
  simp [CompositePOIProvider.search_pois, hnle, herr, dedupByPoiId_eq_self hnd, htake]

/-- Witness for C2: a limit-3 query with one cached candidate and a failing
external source yields exactly the cached candidate. -/
theorem composite_local_only_on_external_error_witness :
    CompositePOIProvider.search_pois (fun _ => [sampleLocalPoi])
      (fun _ => .error "API error") sampleQuery3 =
      { results := [sampleLocalPoi].take 3, externalCalled := true } ∧
    [sampleLocalPoi].take 3 = [sampleLocalPoi] :=
  composite_local_only_on_external_error
    (fun _ => [sampleLocalPoi]) (fun _ => .error "API error") sampleQuery3
    "API error" (by decide) rfl (by decide)

/-- C3: for every search (local source well-formed: distinct identities and
at most `limit` results, as its ranked query contract provides), the result
is the concatenation of local then external contribution, deduplicated by
identity keeping the first occurrence, truncated to `limit` preserving
order; result identities are pairwise distinct, and any result colliding
with a local identity is the local-origin candidate itself. -/
theorem composite_merge_dedup_truncate
    (dbSearch : POIQuery → List POICandidate)
    (extSearch : POIQuery → Except String (List POICandidate)) (q : POIQuery)
    (hnd : ((dbSearch q).map POICandidate.poi_id).Nodup)
    (hlen : (dbSearch q).length ≤ q.limit) :
    (CompositePOIProvider.search_pois dbSearch extSearch q).results =
      (dedupByPoiId (dbSearch q ++
        CompositePOIProvider.externalPart dbSearch extSearch q)).take q.limit ∧
    ((CompositePOIProvider.search_pois dbSearch extSearch q).results.map
      POICandidate.poi_id).Nodup ∧
    (∀ e ∈ (CompositePOIProvider.search_pois dbSearch extSearch q).results,
      (∃ l ∈ dbSearch q, l.poi_id = e.poi_id) → e ∈ dbSearch q) := by
  have hdtake : ∀ l : List POICandidate,
      (((dedupByPoiId l).take q.limit).map POICandidate.poi_id).Nodup := by
    intro l
    rw [List.map_take]
    exact List.Nodup.sublist (List.take_sublist _ _) dedupGo_nodup_ids
  by_cases hle : q.limit ≤ (dbSearch q).length
  · have hexact : (dbSearch q).length = q.limit := Nat.le_antisymm hlen hle
    have hres : CompositePOIProvider.search_pois dbSearch extSearch q =
        { results := dbSearch q, externalCalled := false } := by
      simp [CompositePOIProvider.search_pois, hle]
    have hext : CompositePOIProvider.externalPart dbSearch extSearch q = [] := by
      simp [CompositePOIProvider.externalPart, hle]
    refine ⟨?_, ?_, ?_⟩
    · rw [hres, hext, List.append_nil, dedupByPoiId_eq_self hnd,
        List.take_of_length_le hlen]
    · rw [hres]; exact hnd
    · rw [hres]; intro e he _; exact he
  · have hext0 : ¬ q.limit ≤ (dbSearch q).length := hle
    cases hcall : extSearch q with
    | error msg =>
      have hres : (CompositePOIProvider.search_pois dbSearch extSearch q).results =
          (dedupByPoiId (dbSearch q)).take q.limit := by
        simp [CompositePOIProvider.search_pois, hext0, hcall]
      have hext : CompositePOIProvider.externalPart dbSearch extSearch q = [] := by
        simp [CompositePOIProvider.externalPart, hext0, hcall]
      refine ⟨?_, ?_, ?_⟩
      · rw [hres, hext, List.append_nil]
      · rw [hres]; exact hdtake _
      · rw [hres]
        intro e he _
        exact mem_of_mem_dedupGo (List.mem_of_mem_take he)
    | ok ext =>
      have hres : (CompositePOIProvider.search_pois dbSearch extSearch q).results =
          (dedupByPoiId (dbSearch q ++ ext)).take q.limit := by
        simp [CompositePOIProvider.search_pois, hext0, hcall]
      have hext : CompositePOIProvider.externalPart dbSearch extSearch q = ext := by
        simp [CompositePOIProvider.externalPart, hext0, hcall]
      refine ⟨?_, ?_, ?_⟩
      · rw [hres, hext]
      · rw [hres]; exact hdtake _
      · rw [hres]
        intro e he hex
        exact mem_left_of_mem_dedupGo_append (List.mem_of_mem_take he) hex

/-- Witness for C3: local and external each return a candidate with the same
identity; the merged result keeps the local-origin one only. -/
theorem composite_merge_dedup_truncate_witness :
    (CompositePOIProvider.search_pois (fun _ => [sampleLocalPoi])
      (fun _ => .ok [sampleCollidingPoi]) sampleQuery3).results =
      (dedupByPoiId ([sampleLocalPoi] ++
        CompositePOIProvider.externalPart (fun _ => [sampleLocalPoi])
          (fun _ => .ok [sampleCollidingPoi]) sampleQuery3)).take 3 ∧
    ((CompositePOIProvider.search_pois (fun _ => [sampleLocalPoi])
      (fun _ => .ok [sampleCollidingPoi]) sampleQuery3).results.map
        POICandidate.poi_id).Nodup ∧
    (∀ e ∈ (CompositePOIProvider.search_pois (fun _ => [sampleLocalPoi])
      (fun _ => .ok [sampleCollidingPoi]) sampleQuery3).results,
      (∃ l ∈ [sampleLocalPoi], l.poi_id = e.poi_id) → e ∈ [sampleLocalPoi]) :=
  composite_merge_dedup_truncate (fun _ => [sampleLocalPoi])
    (fun _ => .ok [sampleCollidingPoi]) sampleQuery3 (by decide) (by decide)

/-! ## Lemmas about the route/time optimizer's block loop -/

namespace RouteTimeOptimizer

lemma buildBlocks_cons_needs (est : TravelLocation → TravelLocation → TravelEstimate)
    (dayNum : Nat) (plan : List POIPlanBlock) (idx : Nat)
    (prev : Option POICandidate) (b : SkeletonBlock) (rest : List SkeletonBlock)
    (hn : block_needs_poi b.block_type = true) :
    buildBlocks est dayNum plan idx prev (b :: rest) =
      { block_type := b.block_type
        start_time := b.start_time
        end_time := b.end_time
        poi := select_poi_for_block dayNum idx plan
        travel_time_from_prev :=
          (travelFor est prev (select_poi_for_block dayNum idx plan)).duration_minutes
        travel_distance_meters :=
          (travelFor est prev (select_poi_for_block dayNum idx plan)).distance_meters
        travel_polyline :=
          (travelFor est prev (select_poi_for_block dayNum idx plan)).polyline
        notes := blockNotes b } ::
      buildBlocks est dayNum plan (idx + 1) (select_poi_for_block dayNum idx plan) rest := by
  rw [buildBlocks, if_pos hn]

lemma buildBlocks_cons_skip (est : TravelLocation → TravelLocation → TravelEstimate)
    (dayNum : Nat) (plan : List POIPlanBlock) (idx : Nat)
    (prev : Option POICandidate) (b : SkeletonBlock) (rest : List SkeletonBlock)
    (hn : block_needs_poi b.block_type = false) :
    buildBlocks est dayNum plan idx prev (b :: rest) =
      { block_type := b.block_type
        start_time := b.start_time
        end_time := b.end_time
        poi := none
        travel_time_from_prev := 0
        travel_distance_meters := none
        travel_polyline := none
        notes := blockNotes b } ::
      buildBlocks est dayNum plan (idx + 1) prev rest := by
  rw [buildBlocks, if_neg (by simp [hn])]

/-- The block produced at position `i` of the loop has the skeleton block's
type and, for venue-needing types, the POI selected by
`select_poi_for_block` at the running `enumerate` index. -/
lemma buildBlocks_getElem?_poi (est : TravelLocation → TravelLocation → TravelEstimate)
    (dayNum : Nat) (plan : List POIPlanBlock) :
    ∀ (blocks : List SkeletonBlock) (start : Nat) (prev : Option POICandidate)
      (i : Nat) (b : SkeletonBlock), blocks[i]? = some b →
      ∃ ib, (buildBlocks est dayNum plan start prev blocks)[i]? = some ib ∧
        ib.block_type = b.block_type ∧
        ib.poi = (if block_needs_poi b.block_type
          then select_poi_for_block dayNum (start + i) plan else none) := by
  intro blocks
  induction blocks with
  | nil => intro start prev i b h; simp at h
  | cons a as ih =>
    intro start prev i b h
    cases i with
    | zero =>
      rw [List.getElem?_cons_zero, Option.some.injEq] at h
      subst h
      by_cases hn : block_needs_poi a.block_type
      · rw [buildBlocks_cons_needs est dayNum plan start prev a as hn]
        exact ⟨_, List.getElem?_cons_zero, rfl, by simp [hn]⟩
      · rw [buildBlocks_cons_skip est dayNum plan start prev a as
          (Bool.not_eq_true _ ▸ hn)]
        exact ⟨_, List.getElem?_cons_zero, rfl, by simp [hn]⟩
    | succ j =>
      rw [List.getElem?_cons_succ] at h
      have hstep : start + (j + 1) = (start + 1) + j := by omega
      by_cases hn : block_needs_poi a.block_type
      · rw [buildBlocks_cons_needs est dayNum plan start prev a as hn]
        rcases ih (start + 1) (select_poi_for_block dayNum start plan) j b h with
          ⟨ib, hib, hty, hpoi⟩
        exact ⟨ib, by rw [List.getElem?_cons_succ]; exact hib, hty, by rw [hstep]; exact hpoi⟩
      · rw [buildBlocks_cons_skip est dayNum plan start prev a as
          (Bool.not_eq_true _ ▸ hn)]
        rcases ih (start + 1) prev j b h with ⟨ib, hib, hty, hpoi⟩
        exact ⟨ib, by rw [List.getElem?_cons_succ]; exact hib, hty, by rw [hstep]; exact hpoi⟩

end RouteTimeOptimizer

/-! ## C4: the optimizer selects the rank-0 candidate -/

/-- C4: in a generated itinerary, the block at day position `d`, block
position `i` of a venue-needing skeleton block carries exactly the POI
chosen by `_select_poi_for_block` on `(day_number, i)`: the first candidate
of the first matching POI plan block, `none` when no plan block matches or
its candidate list is empty, and hence the rank-0 candidate whenever the
matching block's candidate list is non-empty. -/
theorem optimizer_selects_rank0
    (est : TravelLocation → TravelLocation → TravelEstimate)
    (macro_plan : MacroPlan) (plan : List POIPlanBlock)
    (d i : Nat) (day : DaySkeleton) (b : SkeletonBlock)
    (hd : macro_plan.days[d]? = some day)
    (hb : day.blocks[i]? = some b)
    (hneeds : RouteTimeOptimizer.block_needs_poi b.block_type = true) :
    ∃ iday, (RouteTimeOptimizer.generate_itinerary_days est macro_plan plan)[d]? =
        some iday ∧
      ∃ ib, iday.blocks[i]? = some ib ∧
        ib.poi = RouteTimeOptimizer.select_poi_for_block day.day_number i plan ∧
        (plan.find? (RouteTimeOptimizer.matchesBlock day.day_number i) = none →
          ib.poi = none) ∧
        (∀ pb, plan.find? (RouteTimeOptimizer.matchesBlock day.day_number i) = some pb →
          ib.poi = pb.candidates.head?) ∧
        (∀ pb c cs, plan.find? (RouteTimeOptimizer.matchesBlock day.day_number i) = some pb →
          pb.candidates = c :: cs → ib.poi = some c) := by
  have hmap : (RouteTimeOptimizer.generate_itinerary_days est macro_plan plan)[d]? =
      some { day_number := day.day_number, date := day.date, theme := day.theme
             blocks := RouteTimeOptimizer.buildBlocks est day.day_number plan 0 none
               day.blocks } := by
    rw [RouteTimeOptimizer.generate_itinerary_days, List.getElem?_map, hd]
    rfl
  refine ⟨_, hmap, ?_⟩
  rcases RouteTimeOptimizer.buildBlocks_getElem?_poi est day.day_number plan
    day.blocks 0 none i b hb with ⟨ib, hib, _, hpoi⟩
  rw [if_pos hneeds, Nat.zero_add] at hpoi
  refine ⟨ib, hib, hpoi, ?_, ?_, ?_⟩
  · intro hfind
    rw [hpoi]; simp [RouteTimeOptimizer.select_poi_for_block, hfind]
  · intro pb hfind
    rw [hpoi]; simp [RouteTimeOptimizer.select_poi_for_block, hfind]
  · intro pb c cs hfind hc
    rw [hpoi]; simp [RouteTimeOptimizer.select_poi_for_block, hfind, hc]

/-- Witness for C4: the one-day, one-meal-block scenario with a two-candidate
plan block puts the first-ranked candidate on the meal block. -/
theorem optimizer_selects_rank0_witness :
    ∃ iday, (RouteTimeOptimizer.generate_itinerary_days sampleEstimator sampleMacroPlan
        [samplePlanBlock])[0]? = some iday ∧
      ∃ ib, iday.blocks[0]? = some ib ∧
        ib.poi = RouteTimeOptimizer.select_poi_for_block sampleDay.day_number 0
          [samplePlanBlock] ∧
        ([samplePlanBlock].find? (RouteTimeOptimizer.matchesBlock sampleDay.day_number 0) =
          none → ib.poi = none) ∧
        (∀ pb, [samplePlanBlock].find?
            (RouteTimeOptimizer.matchesBlock sampleDay.day_number 0) = some pb →
          ib.poi = pb.candidates.head?) ∧
        (∀ pb c cs, [samplePlanBlock].find?
            (RouteTimeOptimizer.matchesBlock sampleDay.day_number 0) = some pb →
          pb.candidates = c :: cs → ib.poi = some c) :=
  optimizer_selects_rank0 sampleEstimator sampleMacroPlan [samplePlanBlock]
    0 0 sampleDay sampleMealBlock (by decide) (by decide) (by decide)

/-! ## C10: rest and travel blocks are inert -/

/-- C10: a rest or travel skeleton block produces an itinerary block with no
selected venue, zero travel time, absent travel distance and path, and a
non-null note, and the loop processes the remaining blocks with the
previous-venue cursor unchanged, so the next venue-bearing block's travel
estimate is computed from the last venue selected before the intervening
rest/travel blocks. -/
theorem rest_travel_blocks_inert
    (est : TravelLocation → TravelLocation → TravelEstimate)
    (dayNum : Nat) (plan : List POIPlanBlock) (idx : Nat)
    (prev : Option POICandidate) (b : SkeletonBlock) (tl : List SkeletonBlock)
    (hb : b.block_type = .rest ∨ b.block_type = .travel) :
    ∃ ib, RouteTimeOptimizer.buildBlocks est dayNum plan idx prev (b :: tl) =
        ib :: RouteTimeOptimizer.buildBlocks est dayNum plan (idx + 1) prev tl ∧
      ib.poi = none ∧ ib.travel_time_from_prev = 0 ∧
      ib.travel_distance_meters = none ∧ ib.travel_polyline = none ∧
      ib.notes ≠ none := by
  have hn : RouteTimeOptimizer.block_needs_poi b.block_type = false := by
    rcases hb with h | h <;> rw [h] <;> rfl
  refine ⟨_, RouteTimeOptimizer.buildBlocks_cons_skip est dayNum plan idx prev b tl hn,
    rfl, rfl, rfl, rfl, ?_⟩
  rcases hb with h | h <;>
    simp [RouteTimeOptimizer.blockNotes, h]

/-- Witness for C10: a rest block after a selected venue keeps the cursor on
that venue and carries a default note. -/
theorem rest_travel_blocks_inert_witness :
    ∃ ib, RouteTimeOptimizer.buildBlocks sampleEstimator 1 [samplePlanBlock] 5
        (some sampleLocalPoi) [sampleRestBlock] =
        ib :: RouteTimeOptimizer.buildBlocks sampleEstimator 1 [samplePlanBlock] 6
          (some sampleLocalPoi) [] ∧
      ib.poi = none ∧ ib.travel_time_from_prev = 0 ∧
      ib.travel_distance_meters = none ∧ ib.travel_polyline = none ∧
      ib.notes ≠ none :=
  rest_travel_blocks_inert sampleEstimator 1 [samplePlanBlock] 5
    (some sampleLocalPoi) sampleRestBlock [] (Or.inl rfl)

/-! ## C7: shape of the generated POI plan -/

/-- C7: the generated POI plan contains only venue-needing block types (rest
and travel never appear); projected to `(day number, block index, block
type)` it is exactly the venue-needing skeleton blocks in skeleton order,
one each; and every plan block's candidates come from one selector query
with the fixed per-block count 3, the matching skeleton block's desired
categories, the trip's budget and the trip's hotel location as center. -/
theorem poi_plan_structure (trip : TripSpec) (macro_plan : MacroPlan)
    (search : POIQuery → List POICandidate) :
    (∀ pb ∈ POIPlanner.generate_poi_plan trip macro_plan search,
      POIPlanner.block_needs_pois pb.block_type = true) ∧
    ((POIPlanner.generate_poi_plan trip macro_plan search).map
        (fun pb => (pb.day_number, pb.block_index, pb.block_type)) =
      macro_plan.days.flatMap fun day =>
        (day.blocks.enum.filter fun ib =>
          POIPlanner.block_needs_pois ib.2.block_type).map fun ib =>
            (day.day_number, ib.1, ib.2.block_type)) ∧
    (∀ pb ∈ POIPlanner.generate_poi_plan trip macro_plan search,
      ∃ day ∈ macro_plan.days, ∃ b : SkeletonBlock,
        pb.day_number = day.day_number ∧
        day.blocks[pb.block_index]? = some b ∧
        pb.block_type = b.block_type ∧
        POIPlanner.block_needs_pois b.block_type = true ∧
        pb.candidates = search
          { city := trip.city, desired_categories := b.desired_categories
            budget := trip.budget, limit := 3
            center_location := trip.hotel_location }) := by
  refine ⟨?_, ?_, ?_⟩
  · intro pb hpb
    rw [POIPlanner.generate_poi_plan, List.mem_flatMap] at hpb
    rcases hpb with ⟨day, _, hpb⟩
    rcases List.mem_map.mp hpb with ⟨ib, hib, rfl⟩
    exact (List.mem_filter.mp hib).2
  · rw [POIPlanner.generate_poi_plan, List.map_flatMap]
    refine List.flatMap_congr ?_
    intro day _
    rw [List.map_map]
    rfl
  · intro pb hpb
    rw [POIPlanner.generate_poi_plan, List.mem_flatMap] at hpb
    rcases hpb with ⟨day, hday, hpb⟩
    rcases List.mem_map.mp hpb with ⟨ib, hib, rfl⟩
    have hfil := List.mem_filter.mp hib
    refine ⟨day, hday, ib.2, rfl, ?_, rfl, hfil.2, rfl⟩
    exact List.mem_enum_iff_getElem?.mp hfil.1

/-- Witness for C7: on the one-day, one-meal-block macro plan the generated
plan projects to exactly that meal block. -/
theorem poi_plan_structure_witness :
    (POIPlanner.generate_poi_plan sampleTrip sampleMacroPlan
        (fun _ => [sampleLocalPoi])).map
        (fun pb => (pb.day_number, pb.block_index, pb.block_type)) =
      sampleMacroPlan.days.flatMap fun day =>
        (day.blocks.enum.filter fun ib =>
          POIPlanner.block_needs_pois ib.2.block_type).map fun ib =>
            (day.day_number, ib.1, ib.2.block_type) :=
  (poi_plan_structure sampleTrip sampleMacroPlan (fun _ => [sampleLocalPoi])).2.1

/-! ## C5: travel fields of venue-bearing blocks -/

/-- C5: under the heuristic estimator a venue-needing block reached with no
previous venue in its day (cursor `none`) gets `travel_time = 0` — in
particular the single meal block of a one-block day; and for any estimator
the travel fields stay at their zero/absent defaults exactly when neither a
previous nor a current venue is present: with neither, the defaults are
used without consulting the estimator; with either present, the fields are
precisely the estimator's output for (previous venue, selected venue). -/
theorem venue_block_travel_fields (mode : TravelMode) :
    (∀ dayNum plan start (b : SkeletonBlock) tl,
      RouteTimeOptimizer.block_needs_poi b.block_type = true →
      ∃ ib tail, RouteTimeOptimizer.buildBlocks
          (SimpleHeuristicTravelTimeProvider.estimate_travel mode) dayNum plan start
          none (b :: tl) = ib :: tail ∧
        ib.travel_time_from_prev = 0) ∧
    (∀ (est : TravelLocation → TravelLocation → TravelEstimate) dayNum plan start
        (b : SkeletonBlock) tl,
      RouteTimeOptimizer.block_needs_poi b.block_type = true →
      RouteTimeOptimizer.select_poi_for_block dayNum start plan = none →
      ∃ ib tail, RouteTimeOptimizer.buildBlocks est dayNum plan start none (b :: tl) =
          ib :: tail ∧
        ib.poi = none ∧ ib.travel_time_from_prev = 0 ∧
        ib.travel_distance_meters = none ∧ ib.travel_polyline = none) ∧
    (∀ (est : TravelLocation → TravelLocation → TravelEstimate) dayNum plan start prev
        (b : SkeletonBlock) tl,
      RouteTimeOptimizer.block_needs_poi b.block_type = true →
      (prev.isSome ||
        (RouteTimeOptimizer.select_poi_for_block dayNum start plan).isSome) = true →
      ∃ ib tail, RouteTimeOptimizer.buildBlocks est dayNum plan start prev (b :: tl) =
          ib :: tail ∧
        ib.travel_time_from_prev = (est (TravelLocation.from_poi prev)
          (TravelLocation.from_poi
            (RouteTimeOptimizer.select_poi_for_block dayNum start plan))).duration_minutes ∧
        ib.travel_distance_meters = (est (TravelLocation.from_poi prev)
          (TravelLocation.from_poi
            (RouteTimeOptimizer.select_poi_for_block dayNum start plan))).distance_meters ∧
        ib.travel_polyline = (est (TravelLocation.from_poi prev)
          (TravelLocation.from_poi
            (RouteTimeOptimizer.select_poi_for_block dayNum start plan))).polyline) := by
  refine ⟨?_, ?_, ?_⟩
  · intro dayNum plan start b tl hn
    rw [RouteTimeOptimizer.buildBlocks_cons_needs _ dayNum plan start none b tl hn]
    refine ⟨_, _, rfl, ?_⟩
    cases hsel : RouteTimeOptimizer.select_poi_for_block dayNum start plan with
    | none => simp [hsel, RouteTimeOptimizer.travelFor]
    | some c =>
      simp [hsel, RouteTimeOptimizer.travelFor, TravelLocation.from_poi,
        SimpleHeuristicTravelTimeProvider.estimate_travel]
  · intro est dayNum plan start b tl hn hsel
    rw [RouteTimeOptimizer.buildBlocks_cons_needs est dayNum plan start none b tl hn]
    exact ⟨_, _, rfl, hsel, by simp [hsel, RouteTimeOptimizer.travelFor],
      by simp [hsel, RouteTimeOptimizer.travelFor],
      by simp [hsel, RouteTimeOptimizer.travelFor]⟩
  · intro est dayNum plan start prev b tl hn hsome
    rw [RouteTimeOptimizer.buildBlocks_cons_needs est dayNum plan start prev b tl hn]
    exact ⟨_, _, rfl, by simp [RouteTimeOptimizer.travelFor, hsome],
      by simp [RouteTimeOptimizer.travelFor, hsome],
      by simp [RouteTimeOptimizer.travelFor, hsome]⟩

/-- Witness for C5: the single meal block of a one-block day, processed with
the walking heuristic estimator and no prior venue, has travel time 0. -/
theorem venue_block_travel_fields_witness :
    ∃ ib tail, RouteTimeOptimizer.buildBlocks
        (SimpleHeuristicTravelTimeProvider.estimate_travel .walking) 1 [samplePlanBlock]
        0 none [sampleMealBlock] = ib :: tail ∧
      ib.travel_time_from_prev = 0 :=
  (venue_block_travel_fields .walking).1 1 [samplePlanBlock] 0 sampleMealBlock []
    (by decide)

/-! ## C6: regeneration is idempotent and replaces in full -/

/-- C6: with the (deterministic) heuristic estimator, generating the
itinerary from an unchanged macro plan and POI plan yields the same day
list — hence identical selected venues and travel figures — whatever
itinerary was stored before (the stored days are replaced in full, never
consulted), and running the generation twice stores the same itinerary as
running it once. -/
theorem itinerary_regeneration_idempotent (mode : TravelMode)
    (macro_plan : MacroPlan) (s1 s2 : RouteTimeOptimizer.ItineraryRecord)
    (hp : s1.poi_plan = s2.poi_plan) :
    (RouteTimeOptimizer.runGenerate
        (SimpleHeuristicTravelTimeProvider.estimate_travel mode) macro_plan s1).days =
      some (RouteTimeOptimizer.generate_itinerary_days
        (SimpleHeuristicTravelTimeProvider.estimate_travel mode) macro_plan
        s1.poi_plan) ∧
    (RouteTimeOptimizer.runGenerate
        (SimpleHeuristicTravelTimeProvider.estimate_travel mode) macro_plan s1).days =
      (RouteTimeOptimizer.runGenerate
        (SimpleHeuristicTravelTimeProvider.estimate_travel mode) macro_plan s2).days ∧
    (RouteTimeOptimizer.runGenerate
        (SimpleHeuristicTravelTimeProvider.estimate_travel mode) macro_plan
        (RouteTimeOptimizer.runGenerate
          (SimpleHeuristicTravelTimeProvider.estimate_travel mode) macro_plan s1)).days =
      (RouteTimeOptimizer.runGenerate
        (SimpleHeuristicTravelTimeProvider.estimate_travel mode) macro_plan s1).days := by
  refine ⟨rfl, ?_, rfl⟩
  simp [RouteTimeOptimizer.runGenerate, RouteTimeOptimizer.storeItinerary, hp]

/-- Witness for C6: two records sharing the POI plan but storing different
prior itineraries produce the same regenerated day list. -/
theorem itinerary_regeneration_idempotent_witness :
    (RouteTimeOptimizer.runGenerate
        (SimpleHeuristicTravelTimeProvider.estimate_travel .walking) sampleMacroPlan
        { poi_plan := [samplePlanBlock], days := none }).days =
      some (RouteTimeOptimizer.generate_itinerary_days
        (SimpleHeuristicTravelTimeProvider.estimate_travel .walking) sampleMacroPlan
        [samplePlanBlock]) ∧
    (RouteTimeOptimizer.runGenerate
        (SimpleHeuristicTravelTimeProvider.estimate_travel .walking) sampleMacroPlan
        { poi_plan := [samplePlanBlock], days := none }).days =
      (RouteTimeOptimizer.runGenerate
        (SimpleHeuristicTravelTimeProvider.estimate_travel .walking) sampleMacroPlan
        { poi_plan := [samplePlanBlock], days := some [] }).days ∧
    (RouteTimeOptimizer.runGenerate
        (SimpleHeuristicTravelTimeProvider.estimate_travel .walking) sampleMacroPlan
        (RouteTimeOptimizer.runGenerate
          (SimpleHeuristicTravelTimeProvider.estimate_travel .walking) sampleMacroPlan
          { poi_plan := [samplePlanBlock], days := none })).days =
      (RouteTimeOptimizer.runGenerate
        (SimpleHeuristicTravelTimeProvider.estimate_travel .walking) sampleMacroPlan
        { poi_plan := [samplePlanBlock], days := none }).days :=
  itinerary_regeneration_idempotent .walking sampleMacroPlan
    { poi_plan := [samplePlanBlock], days := none }
    { poi_plan := [samplePlanBlock], days := some [] } rfl

/-! ## C8: the travel-time provider factory -/

/-- C8: the factory is total (it never raises) and returns the primary
(Google Maps) provider exactly when the configured provider string equals
"google_maps" case-insensitively and the API credential is present and
non-empty; every other combination — explicit "simple", an unknown value, a
missing or empty credential — yields the heuristic provider. -/
theorem factory_selects_provider (s : TravelSettings) :
    (∀ k, get_travel_time_provider s = .google_maps k ↔
      (asciiLower s.travel_time_provider = "google_maps" ∧
        s.google_maps_api_key = some k ∧ k ≠ "")) ∧
    (get_travel_time_provider s = .heuristic ↔
      ¬ (asciiLower s.travel_time_provider = "google_maps" ∧
        ∃ k, s.google_maps_api_key = some k ∧ k ≠ "")) := by
  by_cases hl : asciiLower s.travel_time_provider = "google_maps"
  · cases hk : s.google_maps_api_key with
    | none =>
      have hfac : get_travel_time_provider s = .heuristic := by
        simp [get_travel_time_provider, hl, hk]
      refine ⟨?_, ?_⟩
      · intro k
        rw [hfac]
        constructor
        · intro h; cases h
        · rintro ⟨-, hsome, -⟩
          cases hsome
      · rw [hfac]
        constructor
        · rintro - ⟨-, k, hsome, -⟩
          cases hsome
        · intro _; rfl
    | some key =>
      by_cases hke : key = ""
      · subst hke
        have hfac : get_travel_time_provider s = .heuristic := by
          simp [get_travel_time_provider, hl, hk]
        refine ⟨?_, ?_⟩
        · intro k
          rw [hfac]
          constructor
          · intro h; cases h
          · rintro ⟨-, hsome, hne⟩
            cases hsome
            exact absurd rfl hne
        · rw [hfac]
          constructor
          · rintro - ⟨-, k, hsome, hne⟩
            cases hsome
            exact hne rfl
          · intro _; rfl
      · have hfac : get_travel_time_provider s = .google_maps key := by
          simp [get_travel_time_provider, hl, hk, hke]
        refine ⟨?_, ?_⟩
        · intro k
          rw [hfac]
          constructor
          · intro h
            cases h
            exact ⟨hl, rfl, hke⟩
          · rintro ⟨-, hsome, -⟩
            cases hsome
            rfl
        · rw [hfac]
          constructor
          · intro h; cases h
          · intro hn
            exact absurd ⟨hl, key, rfl, hke⟩ hn
  · have hfac : get_travel_time_provider s = .heuristic := by
      simp [get_travel_time_provider, hl]
    refine ⟨?_, ?_⟩
    · intro k
      rw [hfac]
      constructor
      · intro h; cases h
      · rintro ⟨hcontra, -⟩
        exact absurd hcontra hl
    · rw [hfac]
      constructor
      · rintro - ⟨hcontra, -⟩
        exact absurd hcontra hl
      · intro _; rfl

/-- Witness for C8: a "GOOGLE_MAPS" configuration with a non-empty key gets
the primary provider; the factory call itself returns (never raises). -/
theorem factory_selects_provider_witness :
    get_travel_time_provider
      { travel_time_provider := "GOOGLE_MAPS", google_maps_api_key := some "key123" } =
      .google_maps "key123" :=
  ((factory_selects_provider
      { travel_time_provider := "GOOGLE_MAPS", google_maps_api_key := some "key123" }).1
    "key123").mpr ⟨by decide, rfl, by decide⟩

/-! ## C9: properties of the heuristic travel estimator -/

namespace SimpleHeuristicTravelTimeProvider

lemma deg2rad_mem_Icc {x : ℚ} (h1 : -90 ≤ x) (h2 : x ≤ 90) :
    deg2rad x ∈ Set.Icc (-(Real.pi / 2)) (Real.pi / 2) := by
  have hp := Real.pi_pos
  have h1r : (-90 : ℝ) ≤ (x : ℝ) := by exact_mod_cast h1
  have h2r : (x : ℝ) ≤ 90 := by exact_mod_cast h2
  constructor
  · rw [deg2rad]; nlinarith
  · rw [deg2rad]; nlinarith

lemma deg2rad_sub_half (a b : ℚ) :
    (deg2rad a - deg2rad b) / 2 = ((a : ℝ) - (b : ℝ)) * Real.pi / 360 := by
  rw [deg2rad, deg2rad]; ring

lemma sin_scaled_ne_zero {t : ℝ} (ht : t ≠ 0) (h1 : -360 < t) (h2 : t < 360) :
    Real.sin (t * Real.pi / 360) ≠ 0 := by
  have hp := Real.pi_pos
  have hb1 : -Real.pi < t * Real.pi / 360 := by nlinarith
  have hb2 : t * Real.pi / 360 < Real.pi := by nlinarith
  intro h
  have h0 := (Real.sin_eq_zero_iff_of_lt_of_lt hb1 hb2).mp h
  have : t * Real.pi = 0 := by linarith [h0]
  rcases mul_eq_zero.mp this with h | h
  · exact ht h
  · exact absurd h (ne_of_gt hp)

lemma havParam_nonneg_term {la1 la2 : ℚ} (h1 : -90 ≤ la1) (h2 : la1 ≤ 90)
    (h3 : -90 ≤ la2) (h4 : la2 ≤ 90) :
    0 ≤ Real.cos (deg2rad la1) * Real.cos (deg2rad la2) :=
  mul_nonneg (Real.cos_nonneg_of_mem_Icc (deg2rad_mem_Icc h1 h2))
    (Real.cos_nonneg_of_mem_Icc (deg2rad_mem_Icc h3 h4))

lemma havParam_pos_of_lat_ne {la1 lo1 la2 lo2 : ℚ} (h1 : -90 ≤ la1) (h2 : la1 ≤ 90)
    (h3 : -90 ≤ la2) (h4 : la2 ≤ 90) (hne : la1 ≠ la2) :
    0 < havParam la1 lo1 la2 lo2 := by
  rw [havParam]
  have ht : ((la2 : ℝ) - (la1 : ℝ)) ≠ 0 := by
    intro h
    exact hne (by exact_mod_cast (sub_eq_zero.mp h).symm)
  have hb1 : (-360 : ℝ) < (la2 : ℝ) - (la1 : ℝ) := by
    have h2r : (la2 : ℝ) ≥ -90 := by exact_mod_cast h3
    have h1r : (la1 : ℝ) ≤ 90 := by exact_mod_cast h2
    linarith
  have hb2 : ((la2 : ℝ) - (la1 : ℝ)) < 360 := by
    have h2r : (la2 : ℝ) ≤ 90 := by exact_mod_cast h4
    have h1r : (la1 : ℝ) ≥ -90 := by exact_mod_cast h1
    linarith
  have hs : Real.sin ((deg2rad la2 - deg2rad la1) / 2) ≠ 0 := by
    rw [deg2rad_sub_half]
    exact sin_scaled_ne_zero ht hb1 hb2
  have hsq : 0 < Real.sin ((deg2rad la2 - deg2rad la1) / 2) ^ 2 :=
    pow_two_pos_of_ne_zero hs
  have hterm : 0 ≤ Real.cos (deg2rad la1) * Real.cos (deg2rad la2) *
      Real.sin ((deg2rad lo2 - deg2rad lo1) / 2) ^ 2 :=
    mul_nonneg (havParam_nonneg_term h1 h2 h3 h4) (sq_nonneg _)
  linarith

lemma havParam_pos_of_lon_ne {la lo1 lo2 : ℚ} (h1 : -90 < la) (h2 : la < 90)
    (hne : lo1 ≠ lo2) (hb1 : -360 < lo2 - lo1) (hb2 : lo2 - lo1 < 360) :
    0 < havParam la lo1 la lo2 := by
  rw [havParam]
  have hsin0 : Real.sin ((deg2rad la - deg2rad la) / 2) = 0 := by
    rw [sub_self, zero_div, Real.sin_zero]
  rw [hsin0]
  have hc : 0 < Real.cos (deg2rad la) := by
    refine Real.cos_pos_of_mem_Ioo ⟨?_, ?_⟩
    · have hp := Real.pi_pos
      have h1r : (-90 : ℝ) < (la : ℝ) := by exact_mod_cast h1
      rw [deg2rad]; nlinarith
    · have hp := Real.pi_pos
      have h2r : (la : ℝ) < 90 := by exact_mod_cast h2
      rw [deg2rad]; nlinarith
  have ht : ((lo2 : ℝ) - (lo1 : ℝ)) ≠ 0 := by
    intro h
    exact hne (by exact_mod_cast (sub_eq_zero.mp h).symm)
  have hb1r : (-360 : ℝ) < (lo2 : ℝ) - (lo1 : ℝ) := by
    have : ((lo2 - lo1 : ℚ) : ℝ) > -360 := by exact_mod_cast hb1
    push_cast at this
    linarith
  have hb2r : ((lo2 : ℝ) - (lo1 : ℝ)) < 360 := by
    have : ((lo2 - lo1 : ℚ) : ℝ) < 360 := by exact_mod_cast hb2
    push_cast at this
    linarith
  have hs : Real.sin ((deg2rad lo2 - deg2rad lo1) / 2) ≠ 0 := by
    rw [deg2rad_sub_half]
    exact sin_scaled_ne_zero ht hb1r hb2r
  have hp2 := mul_pos (mul_pos hc hc) (pow_two_pos_of_ne_zero hs)
  simpa using hp2

lemma haversineKm_nonneg (la1 lo1 la2 lo2 : ℚ) : 0 ≤ haversineKm la1 lo1 la2 lo2 := by
  rw [haversineKm]
  have := Real.arcsin_nonneg.mpr (Real.sqrt_nonneg (havParam la1 lo1 la2 lo2))
  nlinarith

lemma haversineKm_pos {la1 lo1 la2 lo2 : ℚ} (h : 0 < havParam la1 lo1 la2 lo2) :
    0 < haversineKm la1 lo1 la2 lo2 := by
  rw [haversineKm]
  have := Real.arcsin_pos.mpr (Real.sqrt_pos.mpr h)
  nlinarith

lemma haversineKm_self (la lo : ℚ) : haversineKm la lo la lo = 0 := by
  rw [haversineKm]
  have : havParam la lo la lo = 0 := by
    simp [havParam, sub_self]
  rw [this, Real.sqrt_zero, Real.arcsin_zero, mul_zero]

lemma speed_kmh_pos (mode : TravelMode) : 0 < speed_kmh mode := by
  cases mode <;> norm_num [speed_kmh]

lemma estimate_travel_coords (mode : TravelMode) (la1 lo1 la2 lo2 : ℚ) :
    estimate_travel mode ⟨some la1, some lo1⟩ ⟨some la2, some lo2⟩ =
      { duration_minutes := haversineKm la1 lo1 la2 lo2 / speed_kmh mode * 60
        distance_meters := some (haversineKm la1 lo1 la2 lo2 * 1000)
        polyline := none } := rfl

lemma cos_deg2rad_ninety : Real.cos (deg2rad (90 : ℚ)) = 0 := by
  have h : deg2rad (90 : ℚ) = Real.pi / 2 := by
    rw [deg2rad]; push_cast; ring
  rw [h, Real.cos_pi_div_two]

/-- Counterexample to C9 as stated: the coordinate pairs `(90, 0)` and
`(90, 90)` are distinct, yet the heuristic walking estimate between them has
duration 0 — both pairs denote the north pole, where the great-circle
formula vanishes (`cos 90° = 0` kills the longitude term and the latitudes
coincide). -/
theorem heuristic_pole_counterexample :
    (estimate_travel .walking { lat := some 90, lon := some 0 }
      { lat := some 90, lon := some 90 }).duration_minutes = 0 ∧
    ({ lat := some 90, lon := some 0 } : TravelLocation) ≠
      { lat := some 90, lon := some 90 } := by
  constructor
  · rw [estimate_travel_coords]
    have hhav : havParam 90 0 90 90 = 0 := by
      simp [havParam, sub_self, cos_deg2rad_ninety]
    have : haversineKm 90 0 90 90 = 0 := by
      rw [haversineKm, hhav, Real.sqrt_zero, Real.arcsin_zero, mul_zero]
    rw [this]
    simp
  · decide

lemma estimate_travel_duration_nonneg (mode : TravelMode) (o d : TravelLocation) :
    0 ≤ (estimate_travel mode o d).duration_minutes := by
  have hsp := speed_kmh_pos mode
  obtain ⟨ola, olo⟩ := o
  obtain ⟨dla, dlo⟩ := d
  cases ola with
  | none => simp [estimate_travel]
  | some la1 =>
    cases olo with
    | none => simp [estimate_travel]
    | some lo1 =>
      cases dla with
      | none => simp [estimate_travel]
      | some la2 =>
        cases dlo with
        | none => simp [estimate_travel]
        | some lo2 =>
          rw [estimate_travel_coords]
          exact mul_nonneg
            (div_nonneg (haversineKm_nonneg la1 lo1 la2 lo2) hsp.le) (by norm_num)

lemma estimate_travel_distance_nonneg (mode : TravelMode) (o d : TravelLocation)
    (dm : ℝ) (h : (estimate_travel mode o d).distance_meters = some dm) : 0 ≤ dm := by
  obtain ⟨ola, olo⟩ := o
  obtain ⟨dla, dlo⟩ := d
  cases ola with
  | none => simp [estimate_travel] at h
  | some la1 =>
    cases olo with
    | none => simp [estimate_travel] at h
    | some lo1 =>
      cases dla with
      | none => simp [estimate_travel] at h
      | some la2 =>
        cases dlo with
        | none => simp [estimate_travel] at h
        | some lo2 =>
          rw [estimate_travel_coords] at h
          simp only [Option.some.injEq] at h
          rw [← h]
          exact mul_nonneg (haversineKm_nonneg la1 lo1 la2 lo2) (by norm_num)

/-- C9 (amended): for every mode and every pair of in-range coordinates
(latitudes within [-90, 90]), the heuristic estimator returns duration 0
when origin and destination coincide, never a negative duration or
distance (for arbitrary locations, coordinates present or not), a strictly
positive duration when the latitudes differ, and a strictly positive
duration when the latitudes agree strictly between the poles and the
longitudes differ by less than a full circle — the pole case of
`heuristic_pole_counterexample` being the obstruction to the unrestricted
claim. -/
theorem heuristic_estimate_props (mode : TravelMode) (la1 lo1 la2 lo2 : Rat)
    (h1 : -90 ≤ la1) (h2 : la1 ≤ 90) (h3 : -90 ≤ la2) (h4 : la2 ≤ 90) :
    (la1 = la2 → lo1 = lo2 →
      (estimate_travel mode { lat := some la1, lon := some lo1 }
        { lat := some la2, lon := some lo2 }).duration_minutes = 0) ∧
    (∀ o d : TravelLocation, 0 ≤ (estimate_travel mode o d).duration_minutes) ∧
    (∀ o d : TravelLocation, ∀ dm : Real,
      (estimate_travel mode o d).distance_meters = some dm → 0 ≤ dm) ∧
    (la1 ≠ la2 →
      0 < (estimate_travel mode { lat := some la1, lon := some lo1 }
        { lat := some la2, lon := some lo2 }).duration_minutes) ∧
    (la1 = la2 → lo1 ≠ lo2 → -90 < la1 → la1 < 90 →
      -360 < lo2 - lo1 → lo2 - lo1 < 360 →
      0 < (estimate_travel mode { lat := some la1, lon := some lo1 }
        { lat := some la2, lon := some lo2 }).duration_minutes) := by
  have hsp := speed_kmh_pos mode
  refine ⟨?_, estimate_travel_duration_nonneg mode, estimate_travel_distance_nonneg mode,
    ?_, ?_⟩
  · rintro rfl rfl
    rw [estimate_travel_coords, haversineKm_self]
    simp
  · intro hne
    rw [estimate_travel_coords]
    have hpos := haversineKm_pos (@havParam_pos_of_lat_ne la1 lo1 la2 lo2 h1 h2 h3 h4 hne)
    exact mul_pos (div_pos hpos hsp) (by norm_num)
  · rintro rfl hne hlt1 hlt2 hb1 hb2
    rw [estimate_travel_coords]
    have hpos := haversineKm_pos (havParam_pos_of_lon_ne hlt1 hlt2 hne hb1 hb2)
    exact mul_pos (div_pos hpos hsp) (by norm_num)

/-- Witness for C9 (amended): one degree of latitude difference at the
equator gives a strictly positive walking duration. -/
theorem heuristic_estimate_props_witness :
    0 < (estimate_travel .walking { lat := some 0, lon := some 0 }
      { lat := some 1, lon := some 0 }).duration_minutes :=
  (heuristic_estimate_props .walking 0 0 1 0 (by norm_num) (by norm_num)
    (by norm_num) (by norm_num)).2.2.2.1 (by norm_num)

end SimpleHeuristicTravelTimeProvider
